import Mathlib

/-!
Verification of the texture-domain and glyph-atlas subsystems of
`friction2d/skia`, shallowly embedded from
`src/gpu/effects/GrTextureDomain.h` and `src/gpu/text/GrAtlasManager.cpp`.

`SkScalar` (a 32-bit float in the source) is modelled by `ℚ`; every value
appearing in the verified computations is of the form `n` or `n + 1/2` for a
32-bit integer `n`, which floats of that magnitude represent exactly for the
concrete inputs considered, so the idealization is faithful there.
`uint32_t` is modelled by `ℕ`; the only 32-bit computation (`DomainKey`)
produces values below `2^6`, far from wrap-around.
-/

namespace Skia

/-! ## GrTextureDomain (src/gpu/effects/GrTextureDomain.h) -/

/-- `GrTextureDomain::Mode` (GrTextureDomain.h lines 30-45). -/
inductive Mode where
  | kIgnore_Mode
  | kClamp_Mode
  | kDecal_Mode
  | kRepeat_Mode
  | kMirrorRepeat_Mode
deriving DecidableEq, Repr, Fintype

/-- The numeric value of each enumerator (C++ enums number from 0). -/
def Mode.toNat : Mode → Nat
  | .kIgnore_Mode => 0
  | .kClamp_Mode => 1
  | .kDecal_Mode => 2
  | .kRepeat_Mode => 3
  | .kMirrorRepeat_Mode => 4

/-- `kModeCount = kLastMode + 1` (GrTextureDomain.h line 46). -/
def kModeCount : Nat := Mode.kMirrorRepeat_Mode.toNat + 1

/-- `SkRect` with `SkScalar` fields, modelled over `ℚ`. -/
structure SkRect where
  fLeft : ℚ
  fTop : ℚ
  fRight : ℚ
  fBottom : ℚ
deriving DecidableEq, Repr

/-- `SkIRect` with `int32_t` fields, modelled over `ℤ`. -/
structure SkIRect where
  fLeft : ℤ
  fTop : ℤ
  fRight : ℤ
  fBottom : ℤ
deriving DecidableEq, Repr

/-- `SkIRect::width() = fRight - fLeft`. -/
def SkIRect.width (r : SkIRect) : ℤ := r.fRight - r.fLeft

/-- `SkIRect::height() = fBottom - fTop`. -/
def SkIRect.height (r : SkIRect) : ℤ := r.fBottom - r.fTop

/-- `SK_ScalarHalf`. -/
def SK_ScalarHalf : ℚ := 1 / 2

/-- `GrTextureDomain`: the protected fields `fDomain`, `fModeX`, `fModeY`,
`fIndex` (GrTextureDomain.h lines 230-235).  The constructor taking a plain
`SkRect` stores its arguments directly into these fields. -/
structure GrTextureDomain where
  fDomain : SkRect
  fModeX : Mode
  fModeY : Mode
  fIndex : ℤ
deriving DecidableEq, Repr

def GrTextureDomain.domain (d : GrTextureDomain) : SkRect := d.fDomain

def GrTextureDomain.modeX (d : GrTextureDomain) : Mode := d.fModeX

def GrTextureDomain.modeY (d : GrTextureDomain) : Mode := d.fModeY

/-- `GrTextureDomain::MakeTexelDomain(const SkIRect&, Mode, Mode)`
(GrTextureDomain.h lines 84-92): for clamp and decal modes on an axis with
positive extent, inset that axis by half a texel on each side. -/
def MakeTexelDomain (texelRect : SkIRect) (modeX modeY : Mode) : SkRect :=
  let insetX : ℚ :=
    if (modeX = Mode.kClamp_Mode ∨ modeX = Mode.kDecal_Mode) ∧ texelRect.width > 0
    then SK_ScalarHalf else 0
  let insetY : ℚ :=
    if (modeY = Mode.kClamp_Mode ∨ modeY = Mode.kDecal_Mode) ∧ texelRect.height > 0
    then SK_ScalarHalf else 0
  ⟨(texelRect.fLeft : ℚ) + insetX, (texelRect.fTop : ℚ) + insetY,
   (texelRect.fRight : ℚ) - insetX, (texelRect.fBottom : ℚ) - insetY⟩

/-- `GrTextureDomain::operator==` (GrTextureDomain.h lines 112-118). -/
def GrTextureDomain.eq (d that : GrTextureDomain) : Bool :=
  decide (d.fModeX = that.fModeX) && decide (d.fModeY = that.fModeY) &&
  (decide (Mode.kIgnore_Mode = d.fModeX) ||
    (decide (d.fDomain.fLeft = that.fDomain.fLeft) &&
     decide (d.fDomain.fRight = that.fDomain.fRight))) &&
  (decide (Mode.kIgnore_Mode = d.fModeY) ||
    (decide (d.fDomain.fTop = that.fDomain.fTop) &&
     decide (d.fDomain.fBottom = that.fDomain.fBottom)))

/-- `GLDomain::kModeBits` (GrTextureDomain.h line 190). -/
def kModeBits : Nat := 3

/-- `GLDomain::kDomainKeyBits` (GrTextureDomain.h line 191). -/
def kDomainKeyBits : Nat := 4

/-- `GrTextureDomain::GLDomain::DomainKey` (GrTextureDomain.h lines 198-201):
`domain.modeX() | (domain.modeY() << kModeBits)` on `uint32_t`. -/
def DomainKey (domain : GrTextureDomain) : Nat :=
  Nat.lor domain.modeX.toNat (Nat.shiftLeft domain.modeY.toNat kModeBits)

/-- Mode-pair level view of `DomainKey`, used to decide finite facts. -/
def DomainKeyOfModes (mx my : Mode) : Nat :=
  Nat.lor mx.toNat (Nat.shiftLeft my.toNat kModeBits)

theorem DomainKey_eq_ofModes (d : GrTextureDomain) :
    DomainKey d = DomainKeyOfModes d.fModeX d.fModeY := rfl

/-- C1: the claim (and the comment above `DomainKey`) says the returned key
fits in `kDomainKeyBits = 4` bits, i.e. is at most 15; but at
`modeX = kIgnore_Mode`, `modeY = kDecal_Mode` the code computes
`0 | (2 << 3) = 16 > 15`, so the code contradicts its own documentation. -/
theorem domainKey_overflows_four_bits :
    DomainKey ⟨⟨0, 0, 4, 4⟩, Mode.kIgnore_Mode, Mode.kDecal_Mode, -1⟩ = 16 ∧
    ¬ DomainKey ⟨⟨0, 0, 4, 4⟩, Mode.kIgnore_Mode, Mode.kDecal_Mode, -1⟩
        ≤ 2 ^ kDomainKeyBits - 1 := by
  decide

/-- C2: `DomainKey` depends only on the two modes (not on the rectangle or
the index), and it is injective over the 25 valid (modeX, modeY) pairs:
domains whose mode pairs differ get different keys. -/
theorem domainKey_injective_on_mode_pairs :
    (∀ a b : GrTextureDomain, a.fModeX = b.fModeX → a.fModeY = b.fModeY →
        DomainKey a = DomainKey b) ∧
    (∀ a b : GrTextureDomain, DomainKey a = DomainKey b →
        a.fModeX = b.fModeX ∧ a.fModeY = b.fModeY) := by
  constructor
  · intro a b hx hy
    rw [DomainKey_eq_ofModes, DomainKey_eq_ofModes, hx, hy]
  · intro a b h
    rw [DomainKey_eq_ofModes, DomainKey_eq_ofModes] at h
    have hinj : ∀ mx my mx2 my2 : Mode,
        DomainKeyOfModes mx my = DomainKeyOfModes mx2 my2 → mx = mx2 ∧ my = my2 := by
      decide
    exact hinj _ _ _ _ h

theorem domainKey_injective_on_mode_pairs_witness :
    DomainKey ⟨⟨0, 0, 1, 1⟩, Mode.kClamp_Mode, Mode.kDecal_Mode, 0⟩ =
      DomainKey ⟨⟨2, 2, 3, 3⟩, Mode.kClamp_Mode, Mode.kDecal_Mode, 5⟩ ∧
    (Mode.kClamp_Mode = Mode.kClamp_Mode ∧ Mode.kDecal_Mode = Mode.kDecal_Mode) :=
  ⟨domainKey_injective_on_mode_pairs.1
      ⟨⟨0, 0, 1, 1⟩, Mode.kClamp_Mode, Mode.kDecal_Mode, 0⟩
      ⟨⟨2, 2, 3, 3⟩, Mode.kClamp_Mode, Mode.kDecal_Mode, 5⟩ rfl rfl,
   domainKey_injective_on_mode_pairs.2
      ⟨⟨0, 0, 1, 1⟩, Mode.kClamp_Mode, Mode.kDecal_Mode, 0⟩
      ⟨⟨2, 2, 3, 3⟩, Mode.kClamp_Mode, Mode.kDecal_Mode, 5⟩ (by decide)⟩

/-- C3: `MakeTexelDomain` insets an axis by half a texel on each side exactly
when that axis's mode is clamp or decal and the axis extent is positive, and
otherwise leaves the axis at the raw integer bounds converted to scalar
coordinates; in particular on `{0,0,4,4}` clamp/clamp gives
`{0.5, 0.5, 3.5, 3.5}` and ignore/ignore gives `{0,0,4,4}`. -/
theorem makeTexelDomain_half_texel_inset :
    (∀ (r : SkIRect) (mX mY : Mode),
      ((mX = Mode.kClamp_Mode ∨ mX = Mode.kDecal_Mode) ∧ 0 < r.width →
        (MakeTexelDomain r mX mY).fLeft = (r.fLeft : ℚ) + SK_ScalarHalf ∧
        (MakeTexelDomain r mX mY).fRight = (r.fRight : ℚ) - SK_ScalarHalf) ∧
      (¬ ((mX = Mode.kClamp_Mode ∨ mX = Mode.kDecal_Mode) ∧ 0 < r.width) →
        (MakeTexelDomain r mX mY).fLeft = (r.fLeft : ℚ) ∧
        (MakeTexelDomain r mX mY).fRight = (r.fRight : ℚ)) ∧
      ((mY = Mode.kClamp_Mode ∨ mY = Mode.kDecal_Mode) ∧ 0 < r.height →
        (MakeTexelDomain r mX mY).fTop = (r.fTop : ℚ) + SK_ScalarHalf ∧
        (MakeTexelDomain r mX mY).fBottom = (r.fBottom : ℚ) - SK_ScalarHalf) ∧
      (¬ ((mY = Mode.kClamp_Mode ∨ mY = Mode.kDecal_Mode) ∧ 0 < r.height) →
        (MakeTexelDomain r mX mY).fTop = (r.fTop : ℚ) ∧
        (MakeTexelDomain r mX mY).fBottom = (r.fBottom : ℚ))) ∧
    MakeTexelDomain ⟨0, 0, 4, 4⟩ Mode.kClamp_Mode Mode.kClamp_Mode =
      ⟨1/2, 1/2, 7/2, 7/2⟩ ∧
    MakeTexelDomain ⟨0, 0, 4, 4⟩ Mode.kIgnore_Mode Mode.kIgnore_Mode =
      ⟨0, 0, 4, 4⟩ := by
  refine ⟨fun r mX mY => ?_, ?_, ?_⟩
  · by_cases hx : (mX = Mode.kClamp_Mode ∨ mX = Mode.kDecal_Mode) ∧ 0 < r.width <;>
      by_cases hy : (mY = Mode.kClamp_Mode ∨ mY = Mode.kDecal_Mode) ∧ 0 < r.height <;>
        simp [MakeTexelDomain, hx, hy]
  · simp only [MakeTexelDomain, SkIRect.width, SkIRect.height, SK_ScalarHalf,
      SkRect.mk.injEq]
    norm_num
  · simp only [MakeTexelDomain, SkIRect.width, SkIRect.height, SK_ScalarHalf,
      SkRect.mk.injEq]
    norm_num
    exact ⟨by decide, by decide⟩

theorem makeTexelDomain_half_texel_inset_witness :
    (MakeTexelDomain ⟨0, 0, 4, 4⟩ Mode.kClamp_Mode Mode.kIgnore_Mode).fLeft =
      (((0 : ℤ) : ℚ)) + SK_ScalarHalf ∧
    (MakeTexelDomain ⟨0, 0, 4, 4⟩ Mode.kClamp_Mode Mode.kIgnore_Mode).fTop =
      (((0 : ℤ) : ℚ)) := by
  have h := makeTexelDomain_half_texel_inset.1 ⟨0, 0, 4, 4⟩
      Mode.kClamp_Mode Mode.kIgnore_Mode
  exact ⟨(h.1 (by decide)).1, (h.2.2.2 (by decide)).1⟩

/-- C4 counterexample: the claimed-equal pair
`TextureDomain({0,0,1,1}, ignore, clamp)` and
`TextureDomain({5,5,6,6}, ignore, clamp)` actually compares unequal, because
the Y mode is `kClamp_Mode` (not ignore) and the Y bounds (top 0 vs 5,
bottom 1 vs 6) differ, so `operator==` returns false. -/
theorem domain_eq_claimed_example_fails :
    GrTextureDomain.eq ⟨⟨0, 0, 1, 1⟩, Mode.kIgnore_Mode, Mode.kClamp_Mode, -1⟩
        ⟨⟨5, 5, 6, 6⟩, Mode.kIgnore_Mode, Mode.kClamp_Mode, -1⟩ = false := by
  decide

/-- C4 (amended): `a == b` holds iff the X modes match, the Y modes match,
and for each axis whose mode is not ignore the corresponding rectangle edges
match; e.g. `TextureDomain({0,0,1,1}, ignore, clamp)` equals
`TextureDomain({5,0,6,1}, ignore, clamp)` (X bounds irrelevant under ignore,
Y bounds equal), and changing the Y bounds makes them unequal. -/
theorem domain_eq_characterization :
    (∀ a b : GrTextureDomain, GrTextureDomain.eq a b = true ↔
      (a.fModeX = b.fModeX ∧ a.fModeY = b.fModeY ∧
        (a.fModeX ≠ Mode.kIgnore_Mode →
          a.fDomain.fLeft = b.fDomain.fLeft ∧ a.fDomain.fRight = b.fDomain.fRight) ∧
        (a.fModeY ≠ Mode.kIgnore_Mode →
          a.fDomain.fTop = b.fDomain.fTop ∧ a.fDomain.fBottom = b.fDomain.fBottom))) ∧
    GrTextureDomain.eq ⟨⟨0, 0, 1, 1⟩, Mode.kIgnore_Mode, Mode.kClamp_Mode, -1⟩
        ⟨⟨5, 0, 6, 1⟩, Mode.kIgnore_Mode, Mode.kClamp_Mode, -1⟩ = true ∧
    GrTextureDomain.eq ⟨⟨0, 0, 1, 1⟩, Mode.kIgnore_Mode, Mode.kClamp_Mode, -1⟩
        ⟨⟨5, 2, 6, 3⟩, Mode.kIgnore_Mode, Mode.kClamp_Mode, -1⟩ = false := by
  refine ⟨fun a b => ?_, by decide, by decide⟩
  simp only [GrTextureDomain.eq, Bool.and_eq_true, Bool.or_eq_true,
    decide_eq_true_eq]
  constructor
  · rintro ⟨⟨⟨hx, hy⟩, hX⟩, hY⟩
    refine ⟨hx, hy, fun hnx => ?_, fun hny => ?_⟩
    · rcases hX with h | h
      · exact absurd h.symm hnx
      · exact h
    · rcases hY with h | h
      · exact absurd h.symm hny
      · exact h
  · rintro ⟨hx, hy, hX, hY⟩
    refine ⟨⟨⟨hx, hy⟩, ?_⟩, ?_⟩
    · by_cases h : a.fModeX = Mode.kIgnore_Mode
      · exact Or.inl h.symm
      · exact Or.inr (hX h)
    · by_cases h : a.fModeY = Mode.kIgnore_Mode
      · exact Or.inl h.symm
      · exact Or.inr (hY h)

theorem domain_eq_characterization_witness :
    GrTextureDomain.eq ⟨⟨0, 0, 1, 1⟩, Mode.kClamp_Mode, Mode.kClamp_Mode, 0⟩
        ⟨⟨0, 0, 1, 1⟩, Mode.kClamp_Mode, Mode.kClamp_Mode, 0⟩ = true :=
  (domain_eq_characterization.1
      ⟨⟨0, 0, 1, 1⟩, Mode.kClamp_Mode, Mode.kClamp_Mode, 0⟩
      ⟨⟨0, 0, 1, 1⟩, Mode.kClamp_Mode, Mode.kClamp_Mode, 0⟩).2
    ⟨rfl, rfl, fun _ => ⟨rfl, rfl⟩, fun _ => ⟨rfl, rfl⟩⟩

/-- C10: `operator==` never consults the disambiguation index `fIndex`:
two domains with the same rectangle and modes but different indices compare
equal. -/
theorem domain_eq_independent_of_index :
    ∀ (r : SkRect) (mX mY : Mode) (i j : ℤ), i ≠ j →
      GrTextureDomain.eq ⟨r, mX, mY, i⟩ ⟨r, mX, mY, j⟩ = true := by
  intro r mX mY i j _
  simp [GrTextureDomain.eq]

theorem domain_eq_independent_of_index_witness :
    GrTextureDomain.eq ⟨⟨0, 0, 1, 1⟩, Mode.kClamp_Mode, Mode.kClamp_Mode, 0⟩
        ⟨⟨0, 0, 1, 1⟩, Mode.kClamp_Mode, Mode.kClamp_Mode, 1⟩ = true :=
  domain_eq_independent_of_index ⟨0, 0, 1, 1⟩ Mode.kClamp_Mode
    Mode.kClamp_Mode 0 1 (by decide)

/-! ## GrDrawOpAtlas state and addToAtlas

`GrDrawOpAtlas` itself (GrDrawOpAtlas.h/.cpp) is not among the provided
source files; only `GrAtlasManager.cpp`, which holds the per-format slots and
delegates to it, is.  The pieces of it the claims need are therefore
modelled from the spec (sections 4.1 and 4.2). -/

/-- `GrDrawOpAtlas::ErrorCode` (spec section 7 error taxonomy). -/
inductive ErrorCode where
  | kSucceeded
  | kError
  | kOversized
deriving DecidableEq, Repr

/-- Modelled from the spec: an `AtlasLocator` is an opaque handle
`{page index, plot index within page, sub-rectangle within plot, a
generation/validity counter}` (spec section 3). -/
structure AtlasLocator where
  pageIndex : Nat
  plotIndex : Nat
  rectX : Nat
  rectY : Nat
  rectW : Nat
  rectH : Nat
  genID : Nat
deriving DecidableEq, Repr

/-- Modelled from the spec: a `Plot` is a fixed-size sub-region of a page,
the unit of eviction, with a "last used token" and occupancy state; the
packer places rectangles in it with a simple shelf strategy (spec sections
3 and 4.1).  The shelf cursor records the fill position of the current row
and the height consumed by finished rows. -/
structure Plot where
  genID : Nat
  lastUseToken : Nat
  shelfX : Nat
  shelfY : Nat
  shelfRowHeight : Nat
deriving DecidableEq, Repr

/-- A fresh, empty plot of generation `g`. -/
def Plot.fresh (g : Nat) : Plot := ⟨g, 0, 0, 0, 0⟩

/-- Modelled from the spec: `tryPack(width, height) -> optional rect` using a
shelf strategy; fails when no contiguous free space remains (spec 4.1). -/
def Plot.tryPack (plotW plotH : Nat) (p : Plot) (w h : Nat) :
    Option ((Nat × Nat) × Plot) :=
  if p.shelfX + w ≤ plotW ∧ p.shelfY + h ≤ plotH then
    some ((p.shelfX, p.shelfY),
      { p with shelfX := p.shelfX + w,
               shelfRowHeight := max p.shelfRowHeight h })
  else if w ≤ plotW ∧ p.shelfY + p.shelfRowHeight + h ≤ plotH then
    some ((0, p.shelfY + p.shelfRowHeight),
      { p with shelfX := w,
               shelfY := p.shelfY + p.shelfRowHeight,
               shelfRowHeight := h })
  else
    none

/-- Modelled from the spec: `resetPlot` clears all occupancy in O(1) by
bumping the generation, invalidating locators into the plot (spec 4.1). -/
def Plot.reset (p : Plot) : Plot :=
  ⟨p.genID + 1, p.lastUseToken, 0, 0, 0⟩

/-- A `Page` is a texture subdivided into a grid of plots (spec section 3);
here the grid is kept as the list of its plots. -/
structure Page where
  plots : List Plot
deriving DecidableEq, Repr

/-- Modelled from the spec: the per-format AtlasPage Manager
("GrDrawOpAtlas"): an ordered sequence of pages (up to `maxPages`), plot
geometry, and usage-token bookkeeping (spec sections 3, 4.1, 4.2). -/
structure GrDrawOpAtlas where
  plotWidth : Nat
  plotHeight : Nat
  plotsPerPage : Nat
  maxPages : Nat
  pages : List Page
deriving DecidableEq, Repr

/-- Try packing into the plots of one page, scanning in order; returns the
plot index, the placed rectangle and the updated page. -/
def Page.tryPack (plotW plotH : Nat) (pg : Page) (w h : Nat) :
    Option (Nat × (Nat × Nat) × Page) :=
  go 0 pg.plots
where
  go (i : Nat) : List Plot → Option (Nat × (Nat × Nat) × Page)
    | [] => none
    | p :: rest =>
      match p.tryPack plotW plotH w h with
      | some (pos, p2) =>
          some (i, pos, ⟨pg.plots.set i p2⟩)
      | none => go (i + 1) rest

/-- Try packing into the existing pages in order; returns page index, plot
index, position, and the updated page list. -/
def tryPackPages (plotW plotH : Nat) (w h : Nat) :
    Nat → List Page → Option (Nat × Nat × (Nat × Nat) × List Page)
  | _, [] => none
  | i, pg :: rest =>
    match pg.tryPack plotW plotH w h with
    | some (plotIdx, pos, pg2) =>
        some (i, plotIdx, pos, pg2 :: rest)
    | none =>
        match tryPackPages plotW plotH w h (i + 1) rest with
        | some (pi, pli, pos, rest2) => some (pi, pli, pos, pg :: rest2)
        | none => none

/-- The (pageIndex, plotIndex) of the plot with the smallest last-used token,
ties broken by lowest page-then-plot index (spec 4.2 step 4). -/
def lruPlot (pages : List Page) : Option (Nat × Nat × Nat) :=
  goPages 0 pages none
where
  better (cand : Nat × Nat × Nat) : Option (Nat × Nat × Nat) → Bool
    | none => true
    | some best => cand.2.2 < best.2.2
  goPlots (pi : Nat) (i : Nat) (acc : Option (Nat × Nat × Nat)) :
      List Plot → Option (Nat × Nat × Nat)
    | [] => acc
    | p :: rest =>
        let acc2 := if better (pi, i, p.lastUseToken) acc
                    then some (pi, i, p.lastUseToken) else acc
        goPlots pi (i + 1) acc2 rest
  goPages (pi : Nat) (pgs : List Page) (acc : Option (Nat × Nat × Nat)) :
      Option (Nat × Nat × Nat) :=
    match pgs with
    | [] => acc
    | pg :: rest => goPages (pi + 1) rest (goPlots pi 0 acc pg.plots)

/-- Update the element at an index of a list in place (no-op out of range). -/
def updateAt {α : Type} (f : α → α) : Nat → List α → List α
  | _, [] => []
  | 0, a :: rest => f a :: rest
  | n + 1, a :: rest => a :: updateAt f n rest

/-- Reset the plot at (pageIdx, plotIdx), bumping its generation. -/
def resetPlotAt (pages : List Page) (pageIdx plotIdx : Nat) : List Page :=
  updateAt (fun pg => ⟨updateAt Plot.reset plotIdx pg.plots⟩) pageIdx pages

/-- Modelled from the spec: `addToAtlas(width, height) -> (code, locator)`
(spec 4.2, pixel upload elided as an external collaborator effect):
1. oversized requests are rejected up front with `kOversized` and nothing is
mutated; 2. otherwise try packing into an existing page; 3. else, below the
page maximum, append a fresh page and pack into it; 4. else reset the
globally least-recently-used plot and retry once; 5. `kError` if even that
fails. -/
def GrDrawOpAtlas.addToAtlas (atlas : GrDrawOpAtlas) (w h : Nat) :
    ErrorCode × GrDrawOpAtlas × Option AtlasLocator :=
  if w > atlas.plotWidth ∨ h > atlas.plotHeight then
    (ErrorCode.kOversized, atlas, none)
  else
    match tryPackPages atlas.plotWidth atlas.plotHeight w h 0 atlas.pages with
    | some (pageIdx, plotIdx, (x, y), pages2) =>
        (ErrorCode.kSucceeded, { atlas with pages := pages2 },
         some ⟨pageIdx, plotIdx, x, y, w, h, genAt pages2 pageIdx plotIdx⟩)
    | none =>
        if atlas.pages.length < atlas.maxPages then
          let newPage : Page := ⟨List.replicate atlas.plotsPerPage (Plot.fresh 1)⟩
          match tryPackPages atlas.plotWidth atlas.plotHeight w h 0
              (atlas.pages ++ [newPage]) with
          | some (pageIdx, plotIdx, (x, y), pages2) =>
              (ErrorCode.kSucceeded, { atlas with pages := pages2 },
               some ⟨pageIdx, plotIdx, x, y, w, h, genAt pages2 pageIdx plotIdx⟩)
          | none => (ErrorCode.kError, atlas, none)
        else
          match lruPlot atlas.pages with
          | some (pageIdx, plotIdx, _) =>
              let pages2 := resetPlotAt atlas.pages pageIdx plotIdx
              match tryPackPages atlas.plotWidth atlas.plotHeight w h 0 pages2 with
              | some (pageIdx2, plotIdx2, (x, y), pages3) =>
                  (ErrorCode.kSucceeded, { atlas with pages := pages3 },
                   some ⟨pageIdx2, plotIdx2, x, y, w, h,
                         genAt pages3 pageIdx2 plotIdx2⟩)
              | none => (ErrorCode.kError, { atlas with pages := pages2 }, none)
          | none => (ErrorCode.kError, atlas, none)
where
  genAt (pages : List Page) (pageIdx plotIdx : Nat) : Nat :=
    match pages.get? pageIdx with
    | some pg =>
        match pg.plots.get? plotIdx with
        | some p => p.genID
        | none => 0
    | none => 0

/-! ## GrAtlasManager (src/gpu/text/GrAtlasManager.cpp) -/

/-- `GrMaskFormat` (declared in GrTypesPriv.h, outside the provided sources;
the spec lists the per-format managers as "e.g., 1-bit, 8-bit, RGBA", one
slot per mask format). -/
inductive GrMaskFormat where
  | kA8_GrMaskFormat
  | kA565_GrMaskFormat
  | kARGB_GrMaskFormat
deriving DecidableEq, Repr, Fintype

/-- `kMaskFormatCount`: the number of mask formats, hence of atlas slots. -/
def kMaskFormatCount : Nat := 3

/-- `MaskFormatToAtlasIndex`: the slot index of a format (the enum value). -/
def MaskFormatToAtlasIndex : GrMaskFormat → Fin kMaskFormatCount
  | .kA8_GrMaskFormat => ⟨0, by decide⟩
  | .kA565_GrMaskFormat => ⟨1, by decide⟩
  | .kARGB_GrMaskFormat => ⟨2, by decide⟩

/-- The `fAtlases[kMaskFormatCount]` array of owning pointers of
`GrAtlasManager`; an empty slot is the null pointer. -/
structure GrAtlasManager where
  fAtlases : Fin kMaskFormatCount → Option GrDrawOpAtlas

/-- `GrAtlasManager::freeAll()` (GrAtlasManager.cpp lines 25-29): the loop
`for i in [0, kMaskFormatCount): fAtlases[i] = nullptr`. -/
def GrAtlasManager.freeAll (m : GrAtlasManager) : GrAtlasManager :=
  ⟨(List.finRange kMaskFormatCount).foldl
      (fun f i => Function.update f i none) m.fAtlases⟩

/-- `GrAtlasManager::initAtlas(GrMaskFormat)` (GrAtlasManager.cpp lines
148-168).  When the slot is empty the code stores the result of
`GrDrawOpAtlas::Make` — whose outcome depends on the external proxy
provider and caps, so it enters here as the argument `make` — and returns
false exactly when that result is null; when the slot is already filled it
returns true without touching it. -/
def GrAtlasManager.initAtlas (m : GrAtlasManager) (make : Option GrDrawOpAtlas)
    (format : GrMaskFormat) : Bool × GrAtlasManager :=
  let index := MaskFormatToAtlasIndex format
  match m.fAtlases index with
  | some _ => (true, m)
  | none =>
      let m2 : GrAtlasManager := ⟨Function.update m.fAtlases index make⟩
      match make with
      | none => (false, m2)
      | some _ => (true, m2)

/-- Modelled from the spec: `GrDrawOpAtlas::BulkUseTokenUpdater`
(GrDrawOpAtlas.h, outside the provided sources) collects the set of
(page, plot) pairs already seen; `add` returns true and records the
locator's plot exactly when that plot was not yet tracked, so a bulk update
"marks each referenced plot's last-used token in one pass, deduplicating
repeated plots" (spec 4.2). -/
structure BulkUseTokenUpdater where
  fPlotsToUpdate : List (Nat × Nat)
deriving DecidableEq, Repr

/-- The plot a locator refers to, as a (page index, plot index) pair. -/
def AtlasLocator.plotKey (l : AtlasLocator) : Nat × Nat :=
  (l.pageIndex, l.plotIndex)

def BulkUseTokenUpdater.add (u : BulkUseTokenUpdater) (l : AtlasLocator) :
    Bool × BulkUseTokenUpdater :=
  if l.plotKey ∈ u.fPlotsToUpdate then (false, u)
  else (true, ⟨l.plotKey :: u.fPlotsToUpdate⟩)

/-- `GrGlyph`: the field `fAtlasLocator` is all the manager reads. -/
structure GrGlyph where
  fAtlasLocator : AtlasLocator
deriving DecidableEq, Repr

/-- A recorded invocation of `GrDrawOpAtlas::setLastUseToken` (an effect on
the per-format atlas): the target plot and the token. -/
structure SetLastUseTokenCall where
  plot : Nat × Nat
  token : Nat
deriving DecidableEq, Repr

/-- `GrAtlasManager::addGlyphToBulkAndSetUseToken` (GrAtlasManager.cpp lines
46-53): `if (updater->add(glyph->fAtlasLocator)) { atlas->setLastUseToken
(glyph->fAtlasLocator, token); }`.  The calls the per-format atlas receives
are returned as an explicit list of effects. -/
def addGlyphToBulkAndSetUseToken (u : BulkUseTokenUpdater) (glyph : GrGlyph)
    (token : Nat) : BulkUseTokenUpdater × List SetLastUseTokenCall :=
  let r := u.add glyph.fAtlasLocator
  if r.1 then (r.2, [⟨glyph.fAtlasLocator.plotKey, token⟩]) else (r.2, [])

/-- A sequence of `addGlyphToBulkAndSetUseToken` calls sharing one updater
and one token, with the emitted `setLastUseToken` calls concatenated. -/
def runBulk (u : BulkUseTokenUpdater) (glyphs : List GrGlyph) (token : Nat) :
    BulkUseTokenUpdater × List SetLastUseTokenCall :=
  match glyphs with
  | [] => (u, [])
  | g :: gs =>
      let r := addGlyphToBulkAndSetUseToken u g token
      let rest := runBulk r.1 gs token
      (rest.1, r.2 ++ rest.2)

/-! ## Theorems about the atlas manager -/

theorem foldl_update_none {α : Type} {n : Nat} (l : List (Fin n))
    (f : Fin n → Option α) (i : Fin n) :
    (l.foldl (fun g j => Function.update g j none) f) i =
      if i ∈ l then none else f i := by
  induction l generalizing f with
  | nil => simp
  | cons a t ih =>
    simp only [List.foldl_cons, ih, List.mem_cons]
    by_cases ht : i ∈ t
    · simp [ht]
    · by_cases ha : i = a
      · simp [ht, ha, Function.update_apply]
      · simp [ht, ha, Function.update_apply]

/-- C5: after `freeAll()` every per-format slot is null, and a subsequent
`initAtlas` for any format (with a successful `GrDrawOpAtlas::Make`)
reconstructs that format's atlas lazily. -/
theorem freeAll_clears_all_slots_then_reinit :
    (∀ (m : GrAtlasManager) (i : Fin kMaskFormatCount),
      m.freeAll.fAtlases i = none) ∧
    (∀ (m : GrAtlasManager) (format : GrMaskFormat) (a : GrDrawOpAtlas),
      (m.freeAll.initAtlas (some a) format).1 = true ∧
      (m.freeAll.initAtlas (some a) format).2.fAtlases
          (MaskFormatToAtlasIndex format) = some a) := by
  have hnone : ∀ (m : GrAtlasManager) (i : Fin kMaskFormatCount),
      m.freeAll.fAtlases i = none := by
    intro m i
    show ((List.finRange kMaskFormatCount).foldl
        (fun g j => Function.update g j none) m.fAtlases) i = none
    rw [foldl_update_none]
    simp
  refine ⟨hnone, fun m format a => ?_⟩
  have h := hnone m (MaskFormatToAtlasIndex format)
  simp [GrAtlasManager.initAtlas, h, Function.update_same]

/-- C6: when the slot is empty and `GrDrawOpAtlas::Make` fails, `initAtlas`
returns false and the slot stays null, so a later call for the same format
attempts construction again (and succeeds when `Make` does). -/
theorem initAtlas_failure_not_cached :
    ∀ (m : GrAtlasManager) (format : GrMaskFormat) (a : GrDrawOpAtlas),
      m.fAtlases (MaskFormatToAtlasIndex format) = none →
      (m.initAtlas none format).1 = false ∧
      (m.initAtlas none format).2.fAtlases
          (MaskFormatToAtlasIndex format) = none ∧
      ((m.initAtlas none format).2.initAtlas (some a) format).1 = true ∧
      ((m.initAtlas none format).2.initAtlas (some a) format).2.fAtlases
          (MaskFormatToAtlasIndex format) = some a := by
  intro m format a h
  simp [GrAtlasManager.initAtlas, h, Function.update_same]

theorem initAtlas_failure_not_cached_witness :
    ((⟨fun _ => none⟩ : GrAtlasManager).initAtlas none
        GrMaskFormat.kA8_GrMaskFormat).1 = false ∧
    ((⟨fun _ => none⟩ : GrAtlasManager).initAtlas none
        GrMaskFormat.kA8_GrMaskFormat).2.fAtlases
        (MaskFormatToAtlasIndex GrMaskFormat.kA8_GrMaskFormat) = none ∧
    (((⟨fun _ => none⟩ : GrAtlasManager).initAtlas none
        GrMaskFormat.kA8_GrMaskFormat).2.initAtlas
        (some ⟨4, 4, 1, 1, []⟩) GrMaskFormat.kA8_GrMaskFormat).1 = true ∧
    (((⟨fun _ => none⟩ : GrAtlasManager).initAtlas none
        GrMaskFormat.kA8_GrMaskFormat).2.initAtlas
        (some ⟨4, 4, 1, 1, []⟩) GrMaskFormat.kA8_GrMaskFormat).2.fAtlases
        (MaskFormatToAtlasIndex GrMaskFormat.kA8_GrMaskFormat) =
      some ⟨4, 4, 1, 1, []⟩ :=
  initAtlas_failure_not_cached ⟨fun _ => none⟩ GrMaskFormat.kA8_GrMaskFormat
    ⟨4, 4, 1, 1, []⟩ rfl

/-- C7: `initAtlas` constructs only into a null slot; when the slot already
holds an atlas the call returns true and leaves the manager — in particular
that very atlas instance — untouched, whatever `Make` would have produced. -/
theorem initAtlas_keeps_existing_instance :
    ∀ (m : GrAtlasManager) (format : GrMaskFormat)
      (make : Option GrDrawOpAtlas) (a : GrDrawOpAtlas),
      m.fAtlases (MaskFormatToAtlasIndex format) = some a →
      m.initAtlas make format = (true, m) := by
  intro m format make a h
  simp [GrAtlasManager.initAtlas, h]

theorem initAtlas_keeps_existing_instance_witness :
    GrAtlasManager.initAtlas
        ⟨fun _ => some ⟨4, 4, 1, 1, []⟩⟩ (some ⟨8, 8, 2, 2, []⟩)
        GrMaskFormat.kARGB_GrMaskFormat =
      (true, ⟨fun _ => some ⟨4, 4, 1, 1, []⟩⟩) :=
  initAtlas_keeps_existing_instance ⟨fun _ => some ⟨4, 4, 1, 1, []⟩⟩
    GrMaskFormat.kARGB_GrMaskFormat (some ⟨8, 8, 2, 2, []⟩)
    ⟨4, 4, 1, 1, []⟩ rfl

theorem runBulk_countP (glyphs : List GrGlyph) (u : BulkUseTokenUpdater)
    (token : Nat) (p : Nat × Nat) :
    (runBulk u glyphs token).2.countP (fun c => decide (c.plot = p)) =
      if p ∈ u.fPlotsToUpdate then 0
      else if p ∈ glyphs.map (fun g => g.fAtlasLocator.plotKey)
      then 1 else 0 := by
  induction glyphs generalizing u with
  | nil => simp [runBulk]
  | cons g gs ih =>
    by_cases hmem : g.fAtlasLocator.plotKey ∈ u.fPlotsToUpdate <;>
      by_cases hp : p = g.fAtlasLocator.plotKey
    · subst hp
      simp [runBulk, addGlyphToBulkAndSetUseToken, BulkUseTokenUpdater.add,
        hmem, ih]
    · simp [runBulk, addGlyphToBulkAndSetUseToken, BulkUseTokenUpdater.add,
        hmem, ih, hp]
    · subst hp
      simp [runBulk, addGlyphToBulkAndSetUseToken, BulkUseTokenUpdater.add,
        hmem, ih]
    · have hcalls : (runBulk u (g :: gs) token).2 =
          ⟨g.fAtlasLocator.plotKey, token⟩ ::
            (runBulk ⟨g.fAtlasLocator.plotKey :: u.fPlotsToUpdate⟩ gs
              token).2 := by
        simp [runBulk, addGlyphToBulkAndSetUseToken,
          BulkUseTokenUpdater.add, hmem]
      have hp2 : ¬ g.fAtlasLocator.plotKey = p := fun hh => hp hh.symm
      rw [hcalls, List.countP_cons, ih]
      simp [hp, hp2, List.mem_cons]

/-- C8: a `setLastUseToken` call is emitted by
`addGlyphToBulkAndSetUseToken` exactly when the updater's `add` returns
true, so over a whole bulk list each distinct referenced plot is marked
exactly once, with repeated plots deduplicated. -/
theorem bulk_use_token_dedup :
    (∀ (u : BulkUseTokenUpdater) (g : GrGlyph) (token : Nat),
      (addGlyphToBulkAndSetUseToken u g token).2.length =
        if (u.add g.fAtlasLocator).1 = true then 1 else 0) ∧
    (∀ (glyphs : List GrGlyph) (token : Nat) (p : Nat × Nat),
      (runBulk ⟨[]⟩ glyphs token).2.countP (fun c => decide (c.plot = p)) =
        if p ∈ glyphs.map (fun g => g.fAtlasLocator.plotKey)
        then 1 else 0) := by
  constructor
  · intro u g token
    by_cases h : (u.add g.fAtlasLocator).1 = true <;>
      simp [addGlyphToBulkAndSetUseToken, h]
  · intro glyphs token p
    rw [runBulk_countP]
    simp

/-- C9: an oversized request is rejected with `kOversized` before any
packing, page creation or eviction, leaving the atlas state untouched. -/
theorem addToAtlas_oversized_no_mutation :
    ∀ (atlas : GrDrawOpAtlas) (w h : Nat),
      w > atlas.plotWidth ∨ h > atlas.plotHeight →
      atlas.addToAtlas w h = (ErrorCode.kOversized, atlas, none) := by
  intro atlas w h hov
  simp [GrDrawOpAtlas.addToAtlas, hov]

theorem addToAtlas_oversized_no_mutation_witness :
    GrDrawOpAtlas.addToAtlas ⟨4, 4, 1, 1, []⟩ 5 1 =
      (ErrorCode.kOversized, ⟨4, 4, 1, 1, []⟩, none) :=
  addToAtlas_oversized_no_mutation ⟨4, 4, 1, 1, []⟩ 5 1 (by decide)

end Skia
